import Mathlib

/-!
Verification of the comfyui-mcp-server asset-preview encoder and workflow
polling client, shallowly embedded from `asset_processor.py` and
`comfyui_client.py` (plus the tool wrapper in `server.py`).

Modelling conventions:
* JSON values (the payloads exchanged with the engine) are the inductive `J`.
* Python `dict`s are insertion-ordered association lists (Python 3.7+ dicts
  preserve insertion order, which the cache-eviction and extraction logic
  observably rely on).
* Python exceptions are `Except String`; a `.error` is an exception
  propagating out of the modelled function.
* The WebP encoder (Pillow `im.save`) is an abstract parameter
  `enc : Nat → Nat → Nat → Nat` mapping (width, height, quality) to the
  encoded byte count; all claims about the encoder are control-flow and
  arithmetic properties that hold for every such function.
* Machine integers: Python ints are unbounded, so `Nat`/`Int` are exact.
  The resize computation `int(w * (target / max(w, h)))` is modelled with
  exact rational arithmetic as `w * target / max w h` (floor division);
  IEEE-754 rounding of the intermediate float is abstracted away.
-/

/-- JSON values, as produced by `response.json()`. Floats are not needed by
any modelled payload, so numbers are `Int`. -/
inductive J where
  | null : J
  | bool : Bool → J
  | num : Int → J
  | str : String → J
  | arr : List J → J
  | obj : List (String × J) → J

/-- `d.get(k)` on a Python dict modelled as an ordered association list. -/
def jLookup (l : List (String × J)) (k : String) : Option J :=
  (l.find? (fun p => p.1 == k)).map (fun p => p.2)

/-- Python truthiness of a JSON value (`if x:`). -/
def pyTruthy : J → Bool
  | J.null => false
  | J.bool b => b
  | J.num n => n != 0
  | J.str s => s != ""
  | J.arr l => !l.isEmpty
  | J.obj l => !l.isEmpty

/-- Python runtime type name, used in `TypeError` messages. -/
def pyTypeName : J → String
  | J.null => "NoneType"
  | J.bool _ => "bool"
  | J.num _ => "int"
  | J.str _ => "str"
  | J.arr _ => "list"
  | J.obj _ => "dict"

/-- Python iteration `for x in v`: lists yield elements, strings yield
1-character strings, dicts yield their keys; other values raise `TypeError`. -/
def pyIter : J → Except String (List J)
  | J.arr l => Except.ok l
  | J.str s => Except.ok (s.toList.map (fun c => J.str (String.singleton c)))
  | J.obj l => Except.ok (l.map (fun p => J.str p.1))
  | v => Except.error ("TypeError: \x27" ++ pyTypeName v ++ "\x27 object is not iterable")

mutual

/-- `json.dumps`: the serialized text of a JSON value. String escaping and the
`indent` pretty-printing option are elided (presentational only; no claim
inspects the dumped text beyond its presence). -/
def dumps : J → String
  | J.null => "null"
  | J.bool b => cond b "true" "false"
  | J.num n => toString n
  | J.str s => "\"" ++ s ++ "\""
  | J.arr l => "[" ++ String.intercalate ", " (dumpsList l) ++ "]"
  | J.obj l => "\x7b" ++ String.intercalate ", " (dumpsObj l) ++ "\x7d"

def dumpsList : List J → List String
  | [] => []
  | x :: xs => dumps x :: dumpsList xs

def dumpsObj : List (String × J) → List String
  | [] => []
  | p :: xs => ("\"" ++ p.1 ++ "\": " ++ dumps p.2) :: dumpsObj xs

end

/-- Python `str(v)` as used in f-string interpolation. For containers Python
uses `repr`, approximated here by the JSON serialization (no claim inspects
such text). -/
def pyStr : J → String
  | J.null => "None"
  | J.bool b => cond b "True" "False"
  | J.num n => toString n
  | J.str s => s
  | J.arr l => dumps (J.arr l)
  | J.obj l => dumps (J.obj l)

/-! ## asset_processor.py -/

/-- `EncodedImage` (asset_processor.py lines 126-134). The base64 text itself
is determined by `raw_bytes`; the model keeps the byte count (`bytes_len`)
and the derived character count (`b64_chars`), which is all any logic reads.
-/
structure EncodedImage where
  b64_chars : Nat
  mime_type : String
  size_px : Nat × Nat
  bytes_len : Nat
deriving DecidableEq

/-- Length of the base64 encoding of `n` bytes: `4 * ceil(n / 3)`. -/
def b64Len (n : Nat) : Nat := 4 * ((n + 2) / 3)

/-- `len("data:image/webp;base64,")` (asset_processor.py line 292). -/
def dataUriPrefixLen : Nat := ("data:image/webp;base64,").length

/-- `get_cache_key` (asset_processor.py lines 137-139). Note the key is
built from asset id, max dimension and quality only — the character budget
is not part of the key. -/
def get_cache_key (asset_id : String) (max_dim : Nat) (quality : Nat) : String :=
  asset_id ++ ":" ++ toString max_dim ++ ":webp:" ++ toString quality

/-- The module-level `_preview_cache` dict: insertion-ordered, oldest first. -/
abbrev Cache : Type := List (String × EncodedImage)

/-- `_get_cached_preview` (lines 142-144): `_preview_cache.get(cache_key)`. -/
def get_cached_preview (cache : Cache) (k : String) : Option EncodedImage :=
  (cache.find? (fun p => p.1 == k)).map (fun p => p.2)

/-- Python `d[k] = v` on an insertion-ordered dict: update in place when the
key exists, else append as newest. -/
def dictSet (c : Cache) (k : String) (v : EncodedImage) : Cache :=
  if c.any (fun p => p.1 == k) then c.map (fun p => if p.1 == k then (k, v) else p)
  else c ++ [(k, v)]

/-- `_cache_preview` (asset_processor.py lines 147-151): evict the oldest
entry (`pop(next(iter(_preview_cache)))`) when the size already exceeds 100,
then insert. -/
def cache_preview (c : Cache) (k : String) (v : EncodedImage) : Cache :=
  let c2 := if c.length > 100 then c.drop 1 else c
  dictSet c2 k v

/-- The resize of one downscale step (asset_processor.py lines 262-268 and
308-315): entered only when `max(w, h) > target`; then
`scale = min(1.0, target / max(w, h))` and each side becomes
`max(1, int(side * scale))`. Exact rational arithmetic; `int` truncation is
floor since all quantities are non-negative. -/
def resize_to_target (w h target : Nat) : Nat × Nat :=
  if max w h > target then
    (max 1 (w * target / max w h), max 1 (h * target / max w h))
  else (w, h)

/-- `quality_levels = [quality, 55, 40]` (line 253). -/
def qualityLevels (quality : Nat) : List Nat := [quality, 55, 40]

/-- `downscale_targets = [max_dim, 384, 256]` (line 254). -/
def downscaleTargets (max_dim : Nat) : List Nat := [max_dim, 384, 256]

/-- Inner loop of the ladder (lines 271-300): try the quality levels in
order at fixed dimensions; the first whose base64 length plus data-URI
prefix fits the budget wins, yielding (encoded byte count, quality, dims). -/
def ladder_quality_loop (enc : Nat → Nat → Nat → Nat) (dims : Nat × Nat)
    (budget : Nat) : List Nat → Option (Nat × Nat × (Nat × Nat))
  | [] => none
  | q :: qs =>
    if b64Len (enc dims.1 dims.2 q) + dataUriPrefixLen ≤ budget then
      some (enc dims.1 dims.2 q, q, dims)
    else ladder_quality_loop enc dims budget qs

/-- Outer loop of the ladder (lines 260-303): resize to each downscale
target in order (from the original image each time) and run the quality
loop; the first success breaks out. -/
def ladder_target_loop (enc : Nat → Nat → Nat → Nat) (w h budget quality : Nat) :
    List Nat → Option (Nat × Nat × (Nat × Nat))
  | [] => none
  | t :: ts =>
    match ladder_quality_loop enc (resize_to_target w h t) budget (qualityLevels quality) with
    | some r => some r
    | none => ladder_target_loop enc w h budget quality ts

/-- The payload of the budget `ValueError`: the achieved character count and
the budget, exactly the two numbers the error message reports (lines 333-336
report the bare base64 count; lines 348-352 report the prefixed total). -/
structure BudgetError where
  achieved : Nat
  budget : Nat
deriving DecidableEq

/-- Final re-encode and budget gate (asset_processor.py lines 338-361):
recompute the base64 length of the chosen bytes, refuse to inline when the
prefixed total exceeds the budget, else build the `EncodedImage`. -/
def finishEncode (budget bl : Nat) (dims : Nat × Nat) : Except BudgetError EncodedImage :=
  if b64Len bl + dataUriPrefixLen > budget then
    Except.error ⟨b64Len bl + dataUriPrefixLen, budget⟩
  else Except.ok ⟨b64Len bl, "image/webp", dims, bl⟩

/-- The deterministic quality/downscale ladder of `encode_preview_for_mcp`
(asset_processor.py lines 250-361), from the normalized image of size
`(w, h)` onwards: run the nested loops; if nothing fits, make the
last-resort attempt at 256px / quality 35 (lines 305-336); every success
passes through the final budget gate. -/
def encode_ladder (enc : Nat → Nat → Nat → Nat) (w h max_dim budget quality : Nat) :
    Except BudgetError EncodedImage :=
  match ladder_target_loop enc w h budget quality (downscaleTargets max_dim) with
  | some (bl, _, dims) => finishEncode budget bl dims
  | none =>
    if b64Len (enc (resize_to_target w h 256).1 (resize_to_target w h 256).2 35) +
        dataUriPrefixLen ≤ budget then
      finishEncode budget (enc (resize_to_target w h 256).1 (resize_to_target w h 256).2 35)
        (resize_to_target w h 256)
    else
      Except.error
        ⟨b64Len (enc (resize_to_target w h 256).1 (resize_to_target w h 256).2 35), budget⟩

/-- `if cache_key:` — Python truthiness of the optional key (both `None` and
the empty string skip the cache). -/
def resolveKey : Option String → Option String
  | some k => if k == "" then none else some k
  | none => none

/-- Cache consultation of `encode_preview_for_mcp` (lines 204-209). -/
def cacheLookupOpt (cache : Cache) : Option String → Option EncodedImage
  | some k => get_cached_preview cache k
  | none => none

/-- `encode_preview_for_mcp` (asset_processor.py lines 170-375): return the
cached preview on a cache hit, else run the ladder and cache a successful
result. The image loading/normalization (lines 211-248) determines the
source dimensions `(w, h)` handed to the ladder; the function threads the
module-level cache explicitly. -/
def encode_preview_for_mcp (enc : Nat → Nat → Nat → Nat) (cache : Cache)
    (w h max_dim budget quality : Nat) (cache_key : Option String) :
    Except BudgetError (EncodedImage × Cache) :=
  match cacheLookupOpt cache (resolveKey cache_key) with
  | some cached => Except.ok (cached, cache)
  | none =>
    match encode_ladder enc w h max_dim budget quality with
    | Except.error e => Except.error e
    | Except.ok result =>
      match resolveKey cache_key with
      | some k => Except.ok (result, cache_preview cache k result)
      | none => Except.ok (result, cache)

/-! Spec-side description of the search schedule, for the refinement claim
about the ladder. -/

/-- Modelled from the spec: the search schedule as the flat list of
(downscale target, quality) pairs — "outer loop over downscale targets
[max_dim, 384, 256]", "inner loop over quality levels
[starting_quality, 55, 40]". -/
def specSchedule (max_dim quality : Nat) : List (Nat × Nat) :=
  (downscaleTargets max_dim).foldr
    (fun t acc => (qualityLevels quality).map (fun q => (t, q)) ++ acc) []

/-- Modelled from the spec: a (target, quality) combination fits when the
base64 length of the encoding plus the data-URI prefix is within budget. -/
def comboFits (enc : Nat → Nat → Nat → Nat) (w h budget : Nat) (tq : Nat × Nat) : Bool :=
  b64Len (enc (resize_to_target w h tq.1).1 (resize_to_target w h tq.1).2 tq.2) +
    dataUriPrefixLen ≤ budget

/-- Modelled from the spec: greedy first-fit over a schedule — "return
immediately (first success wins)". -/
def firstFit (enc : Nat → Nat → Nat → Nat) (w h budget : Nat) :
    List (Nat × Nat) → Option (Nat × Nat)
  | [] => none
  | tq :: rest =>
    if comboFits enc w h budget tq then some tq else firstFit enc w h budget rest

/-! ## comfyui_client.py — URL building and asset extraction -/

/-- Characters never quoted by `urllib.parse.quote` (the always-safe set:
ASCII letters, digits, and `_ . - ~`); the call sites pass an empty extra
safe set, so everything else is percent-encoded. -/
def isUnreservedByte (b : Nat) : Bool :=
  (0x41 ≤ b && b ≤ 0x5A) || (0x61 ≤ b && b ≤ 0x7A) || (0x30 ≤ b && b ≤ 0x39) ||
  b == 0x5F || b == 0x2E || b == 0x2D || b == 0x7E

/-- Uppercase hex digit of `n < 16`. -/
def hexDigit (n : Nat) : Char :=
  if n < 10 then Char.ofNat (0x30 + n) else Char.ofNat (0x41 + n - 10)

/-- UTF-8 encoding of one code point, as the byte values `quote` percent-encodes. -/
def utf8Bytes (c : Char) : List Nat :=
  let n := c.toNat
  if n < 0x80 then [n]
  else if n < 0x800 then [0xC0 + n / 0x40, 0x80 + n % 0x40]
  else if n < 0x10000 then
    [0xE0 + n / 0x1000, 0x80 + (n / 0x40) % 0x40, 0x80 + n % 0x40]
  else
    [0xF0 + n / 0x40000, 0x80 + (n / 0x1000) % 0x40, 0x80 + (n / 0x40) % 0x40, 0x80 + n % 0x40]

/-- One byte of `quote(s, safe=...)` with the empty extra safe set: keep
always-safe bytes, percent-encode the rest as `%XX` uppercase. -/
def quoteByte (b : Nat) : List Char :=
  if isUnreservedByte b then [Char.ofNat b]
  else ['%', hexDigit (b / 16), hexDigit (b % 16)]

/-- `urllib.parse.quote(s, safe='')` (comfyui_client.py lines 444-445):
percent-encode the UTF-8 bytes of `s`. -/
def quote (s : String) : String :=
  String.mk (((s.toList.map utf8Bytes).flatten).map quoteByte).flatten

/-- `base_url.rstrip('/')`: drop trailing slash characters. -/
def rstripSlashes (s : String) : String :=
  String.mk ((s.toList.reverse.dropWhile (fun c => c == '/')).reverse)

/-- Asset URL construction of `_extract_first_asset_info`
(comfyui_client.py lines 442-450): strip trailing slashes from the base
URL, percent-encode filename and (when non-empty) subfolder, and omit the
`subfolder` query parameter entirely when the subfolder is empty. The
`type` value is interpolated unencoded, as in the source. -/
def build_url (base_url filename subfolder output_type : String) : String :=
  let base := rstripSlashes base_url
  let ef := quote filename
  let es := if subfolder != "" then quote subfolder else ""
  if es != "" then
    base ++ "/view?filename=" ++ ef ++ "&subfolder=" ++ es ++ "&type=" ++ output_type
  else
    base ++ "/view?filename=" ++ ef ++ "&type=" ++ output_type

/-- Result of `_extract_first_asset_info`. -/
structure AssetInfo where
  filename : String
  subfolder : String
  output_type : String
  asset_url : String
deriving DecidableEq

/-- String-valued field access `asset.get(key, default)` — the engine
contract types these fields as strings; a present non-string value would
make the Python `quote`/f-string calls fail later and is outside the
modelled payloads. -/
def getStrD (o : List (String × J)) (k : String) (dflt : String) : String :=
  match jLookup o k with
  | some (J.str s) => s
  | _ => dflt

/-- One `preferred_output_keys` check inside a node (comfyui_client.py
lines 431-440): the key must map to a non-empty list whose first element is
a dict with a truthy `filename`; on success yield
(filename, subfolder, type). A non-string `filename` would be truthy in
Python and crash in `quote` later; such payloads are outside the engine
contract and are treated as not well-formed here. -/
def wellFormedFirstAsset (node_output : List (String × J)) (k : String) :
    Option (String × String × String) :=
  match jLookup node_output k with
  | some (J.arr (a :: _)) =>
    match a with
    | J.obj ao =>
      match jLookup ao "filename" with
      | some (J.str f) =>
        if f == "" then none
        else some (f, getStrD ao "subfolder" "", getStrD ao "type" "output")
      | _ => none
    | _ => none
  | _ => none

/-- Inner loop over `preferred_output_keys` (line 430): first matching key wins. -/
def findAssetInNode (node_output : List (String × J)) :
    List String → Option (String × String × String)
  | [] => none
  | k :: ks =>
    match wellFormedFirstAsset node_output k with
    | some r => some r
    | none => findAssetInNode node_output ks

/-- Outer loop over `outputs.items()` (lines 427-429): nodes in the given
iteration order; non-dict node outputs are skipped. -/
def findAssetInOutputs (keys : List String) :
    List (String × J) → Option (String × String × String)
  | [] => none
  | (_, node_output) :: rest =>
    match node_output with
    | J.obj no =>
      match findAssetInNode no keys with
      | some r => some r
      | none => findAssetInOutputs keys rest
    | _ => findAssetInOutputs keys rest

/-- The no-match exception text (lines 459-462); the interpolated dump of the
available output keys is elided (presentational; no claim inspects it). -/
def noMatchMessage (keys : List String) : String :=
  "No outputs matched preferred keys: " ++ String.intercalate ", " keys

/-- `_extract_first_asset_info` (comfyui_client.py lines 421-462): scan the
outputs mapping in iteration order, keys in priority order, and build the
asset locator from the first well-formed asset; raise when nothing matches.
A non-dict outputs value would fail at `outputs.items()`. -/
def extract_first_asset_info (base_url : String) (outputs : J) (keys : List String) :
    Except String AssetInfo :=
  match outputs with
  | J.obj nodes =>
    match findAssetInOutputs keys nodes with
    | some (f, sub, ty) => Except.ok ⟨f, sub, ty, build_url base_url f sub ty⟩
    | none => Except.error (noMatchMessage keys)
  | _ => Except.error "AttributeError: object has no attribute items"

/-! ## comfyui_client.py — status classification -/

/-- `_has_status_message` (comfyui_client.py lines 201-215): falsy message
collections yield `False`; otherwise iterate (raising `TypeError` on
non-iterable truthy values, as Python does) and look for a `[target, ...]`
pair or a bare `target` string. -/
def has_status_message (messages : J) (target : String) : Except String Bool :=
  if !pyTruthy messages then Except.ok false
  else
    match pyIter messages with
    | Except.error t => Except.error t
    | Except.ok l =>
      Except.ok (l.any (fun m =>
        (match m with
         | J.arr (m0 :: _) =>
           match m0 with
           | J.str s => s == target
           | _ => false
         | _ => false) ||
        (match m with
         | J.str s => s == target
         | _ => false)))

/-- Python `line.strip()`: remove leading and trailing whitespace. -/
def pyStrip (s : String) : String :=
  String.mk (((s.toList.dropWhile Char.isWhitespace).reverse.dropWhile
    Char.isWhitespace).reverse)

/-- Python `s.startswith(pre)`. -/
def pyStartsWith (s pre : String) : Bool :=
  pre.toList.isPrefixOf s.toList

/-- The last meaningful traceback line (comfyui_client.py lines 244-248):
walk the traceback in reverse and keep the first line whose stripped text is
non-empty and starts with neither `Traceback` nor `File`. -/
def tracebackTail : List J → List String
  | [] => []
  | l :: rest =>
    let stripped := match l with
      | J.str s => pyStrip s
      | _ => ""
    if stripped != "" && !pyStartsWith stripped "Traceback" && !pyStartsWith stripped "File" then
      ["  -> " ++ stripped]
    else tracebackTail rest

/-- Parts contributed by one structured status message (comfyui_client.py
lines 232-248): an `["execution_error", data]` pair yields the node/exception
summary plus the traceback tail. -/
def executionErrorParts (msg : J) : List String :=
  match msg with
  | J.arr (m0 :: m1 :: _) =>
    let isExecError := match m0 with
      | J.str s => s == "execution_error"
      | _ => false
    if isExecError then
      let data := match m1 with
        | J.obj o => o
        | _ => []
      let node_type := pyStr ((jLookup data "node_type").getD (J.str "unknown"))
      let node_id := pyStr ((jLookup data "node_id").getD (J.str "?"))
      let exc_type := pyStr ((jLookup data "exception_type").getD (J.str "Error"))
      let exc_msg := pyStr ((jLookup data "exception_message").getD (J.str "unknown error"))
      let head := "Node " ++ node_id ++ " (" ++ node_type ++ "): [" ++ exc_type ++ "] " ++ exc_msg
      let tb :=
        match jLookup data "traceback" with
        | some (J.arr lines) => if lines.isEmpty then [] else tracebackTail lines.reverse
        | _ => []
      head :: tb
    else []
  | _ => []

/-- Parts contributed by one legacy status entry (comfyui_client.py
lines 251-254). -/
def legacyErrorParts (entry : J) : List String :=
  match entry with
  | J.arr (e0 :: e1 :: _) =>
    let isExecError := match e0 with
      | J.str s => s == "execution_error"
      | _ => false
    if isExecError then ["Execution error: " ++ pyStr e1] else []
  | _ => []

/-- The structured-status scan (comfyui_client.py lines 229-247): on a dict
status, iterate its `messages` — the unguarded `for msg in messages` raises
`TypeError` when that value is non-iterable — collecting execution-error
parts; a non-dict status contributes nothing here. -/
def structuredParts : J → Except String (List String)
  | J.obj so =>
    match pyIter ((jLookup so "messages").getD (J.arr [])) with
    | Except.error t => Except.error t
    | Except.ok msgs => Except.ok (msgs.foldl (fun acc m => acc ++ executionErrorParts m) [])
  | _ => Except.ok []

/-- The fallback tiers of `_extract_node_errors` (comfyui_client.py lines
250-263): when the structured scan found nothing, try the legacy list
shape, then the top-level `error` key, then the raw-status dump. -/
def fallbackParts (prompt_data : List (String × J)) (status : J)
    (parts0 : List String) : List String :=
  let parts1 :=
    if parts0.isEmpty then
      match status with
      | J.arr entries => entries.foldl (fun acc e => acc ++ legacyErrorParts e) []
      | _ => []
    else parts0
  let parts2 :=
    if parts1.isEmpty then
      match jLookup prompt_data "error" with
      | some v => ["Error: " ++ dumps v]
      | none => []
    else parts1
  if parts2.isEmpty then
    ["No detailed error info. Status: " ++
      (if pyTruthy status then dumps status else "no status info")]
  else parts2

/-- `_extract_node_errors` (comfyui_client.py lines 217-265): structured
dict status first, then the fallback tiers, joined with `"; "`. -/
def extract_node_errors (prompt_data : List (String × J)) : Except String String :=
  match structuredParts ((jLookup prompt_data "status").getD (J.obj [])) with
  | Except.error t => Except.error t
  | Except.ok parts0 =>
    Except.ok (String.intercalate "; "
      (fallbackParts prompt_data ((jLookup prompt_data "status").getD (J.obj [])) parts0))

/-! ## comfyui_client.py — the polling loop `_wait_for_prompt` -/

/-- One HTTP exchange as the polling loop sees it: a transport failure
(`requests.RequestException`), or a status code with the result of
`response.json()` (`none` models the `ValueError` of a non-JSON body). -/
inductive HttpResp where
  | netError : HttpResp
  | resp : Nat → Option J → HttpResp

/-- The external responses one polling attempt can consume: the
`/history/{prompt_id}` response and, when the attempt takes the
execution-success re-fetch branch, the unscoped `/history` response. -/
structure PollResp where
  hist : HttpResp
  full : HttpResp

/-- Outcome of one iteration of the `for attempt in range(max_attempts)`
body: continue to the next attempt, return the outputs, or raise an
exception that the loop's `except` clauses do not catch. -/
inductive AttemptOutcome where
  | retry : AttemptOutcome
  | done : J → AttemptOutcome
  | raiseExc : String → AttemptOutcome

/-- Python `status.get("completed") == False`: only `False` and `0` compare
equal to `False`; an absent key gives `None`, which does not. -/
def pyEqFalse : Option J → Bool
  | some (J.bool b) => !b
  | some (J.num n) => n == 0
  | _ => false

/-- `status_str == "error"` on the raw status-string value. -/
def isErrorStr : J → Bool
  | J.str s => s == "error"
  | _ => false

/-- `status.get("status_str", "") if isinstance(status, dict) else ""`
(comfyui_client.py lines 321 and 352). -/
def getStatusStr (status : J) : J :=
  match status with
  | J.obj so => (jLookup so "status_str").getD (J.str "")
  | _ => J.str ""

/-- `status.get("messages", []) if isinstance(status, dict) else status if
isinstance(status, list) else []` (comfyui_client.py lines 322 and 353). -/
def getMessages (status : J) : J :=
  match status with
  | J.obj so => (jLookup so "messages").getD (J.arr [])
  | J.arr l => J.arr l
  | _ => J.arr []

/-- Raise with the given message text followed by the extracted node
errors; a `TypeError` thrown by the classifier itself propagates instead
(it is not caught by the loop's `except` clauses either). -/
def raiseWithDiagnostics (prompt_data : List (String × J)) (text : String) : AttemptOutcome :=
  match extract_node_errors prompt_data with
  | Except.ok d => AttemptOutcome.raiseExc (text ++ d)
  | Except.error t => AttemptOutcome.raiseExc t

/-- The execution-success re-fetch of the unscoped `/history`
(comfyui_client.py lines 331-343): wrapped in `try/except Exception`, so any
transport error, bad status, non-JSON body or unexpected shape falls through
to the `continue`; outputs are returned only when the prompt appears in the
full history with a truthy `outputs` field. -/
def tryFullHistory (prompt_id : String) (full : HttpResp) : Option J :=
  match full with
  | HttpResp.netError => none
  | HttpResp.resp code body =>
    if code == 200 then
      match body with
      | some (J.obj fh) =>
        match jLookup fh prompt_id with
        | some (J.obj fpd) =>
          match jLookup fpd "outputs" with
          | some outs => if pyTruthy outs then some outs else none
          | none => none
        | _ => none
      | _ => none
    else none

/-- The missing-`outputs` branch (comfyui_client.py lines 318-347): check
for an execution error, then for an execution success (triggering the
full-history re-fetch), otherwise log and continue. -/
def stepNoOutputs (prompt_id : String) (pd : List (String × J)) (full : HttpResp) :
    AttemptOutcome :=
  let status := (jLookup pd "status").getD (J.obj [])
  let messages := getMessages status
  if isErrorStr (getStatusStr status) then
    raiseWithDiagnostics pd "Workflow execution failed: "
  else
    match has_status_message messages "execution_error" with
    | Except.error t => AttemptOutcome.raiseExc t
    | Except.ok true => raiseWithDiagnostics pd "Workflow execution failed: "
    | Except.ok false =>
      match has_status_message messages "execution_success" with
      | Except.error t => AttemptOutcome.raiseExc t
      | Except.ok true =>
        match tryFullHistory prompt_id full with
        | some outs => AttemptOutcome.done outs
        | none => AttemptOutcome.retry
      | Except.ok false => AttemptOutcome.retry

/-- The empty-or-non-dict `outputs` branch (comfyui_client.py lines
350-370): error signals raise; a success signal waits and retries; anything
else raises the produced-no-outputs diagnostic. -/
def stepEmptyOutputs (pd : List (String × J)) : AttemptOutcome :=
  let status := (jLookup pd "status").getD (J.obj [])
  let messages := getMessages status
  if isErrorStr (getStatusStr status) then
    raiseWithDiagnostics pd "Workflow execution failed: "
  else
    match has_status_message messages "execution_error" with
    | Except.error t => AttemptOutcome.raiseExc t
    | Except.ok true => raiseWithDiagnostics pd "Workflow execution failed: "
    | Except.ok false =>
      match has_status_message messages "execution_success" with
      | Except.error t => AttemptOutcome.raiseExc t
      | Except.ok true => AttemptOutcome.retry
      | Except.ok false =>
        raiseWithDiagnostics pd "Workflow completed but produced no outputs. Diagnostics: "

/-- The checks on a found prompt entry (comfyui_client.py lines 302-375):
top-level `error` key, failure flags in a dict status, then the outputs
inspection. -/
def stepPromptData (prompt_id : String) (pd : List (String × J)) (full : HttpResp) :
    AttemptOutcome :=
  match jLookup pd "error" with
  | some error_info =>
    AttemptOutcome.raiseExc ("Workflow failed with error: " ++ dumps error_info)
  | none =>
    let status := (jLookup pd "status").getD (J.obj [])
    let failFlag :=
      match status with
      | J.obj so =>
        if pyEqFalse (jLookup so "completed") then
          some (AttemptOutcome.raiseExc ("Workflow failed: " ++
            pyStr ((jLookup so "messages").getD (J.arr [J.str "Workflow failed"]))))
        else if isErrorStr ((jLookup so "status_str").getD J.null) then
          some (raiseWithDiagnostics pd "Workflow execution error: ")
        else none
      | _ => none
    match failFlag with
    | some out => out
    | none =>
      match jLookup pd "outputs" with
      | none => stepNoOutputs prompt_id pd full
      | some outputs =>
        match outputs with
        | J.obj l =>
          if l.isEmpty then stepEmptyOutputs pd
          else AttemptOutcome.done outputs
        | _ => stepEmptyOutputs pd

/-- One polling attempt (comfyui_client.py lines 268-383): transport
errors, non-200 statuses, malformed JSON, a missing prompt id or a non-dict
prompt entry all sleep and continue; otherwise inspect the prompt data. -/
def attemptStep (prompt_id : String) (r : PollResp) : AttemptOutcome :=
  match r.hist with
  | HttpResp.netError => AttemptOutcome.retry
  | HttpResp.resp code body =>
    if code != 200 then AttemptOutcome.retry
    else
      match body with
      | none => AttemptOutcome.retry
      | some history =>
        match history with
        | J.obj h =>
          match jLookup h prompt_id with
          | none => AttemptOutcome.retry
          | some prompt_data =>
            match prompt_data with
            | J.obj pd => stepPromptData prompt_id pd r.full
            | _ => AttemptOutcome.retry
        | _ => AttemptOutcome.retry

/-- `_wait_for_prompt` (comfyui_client.py lines 267-387): run one attempt
per available response (`responses.length` plays `max_attempts`); a `done`
outcome returns the outputs, an uncaught exception propagates, and an
exhausted loop returns the `None` sentinel instead of raising. -/
def wait_for_prompt (prompt_id : String) : List PollResp → Except String (Option J)
  | [] => Except.ok none
  | r :: rs =>
    match attemptStep prompt_id r with
    | AttemptOutcome.retry => wait_for_prompt prompt_id rs
    | AttemptOutcome.done outs => Except.ok (some outs)
    | AttemptOutcome.raiseExc m => Except.error m

/-! ## comfyui_client.py — orchestration, and the tool wrapper of server.py -/

/-- Result of `run_custom_workflow`: either the still-running job handle
(comfyui_client.py lines 67-75) or the completed-result dict (lines 92-102);
the model keeps the asset fields and raw outputs (the best-effort metadata
and history enrichment of lines 81-90 performs further network calls and is
not consulted by any claim). -/
inductive RunResult where
  | running : String → String → RunResult
  | completed : AssetInfo → J → RunResult

/-- The job-handle message of comfyui_client.py lines 71-74. -/
def stillRunningMessage (prompt_id : String) (max_attempts : Nat) : String :=
  "Workflow still running after " ++ toString max_attempts ++
    "s. Use get_job(prompt_id=\x27" ++ prompt_id ++ "\x27) to poll for completion."

/-- `run_custom_workflow` (comfyui_client.py lines 58-102), from the point
where `_queue_workflow` has yielded `prompt_id`: poll, and either return the
running handle on the `None` sentinel, or extract the first asset from the
outputs. Exceptions from polling or extraction propagate to the caller. -/
def run_custom_workflow (base_url prompt_id : String) (responses : List PollResp)
    (preferred_output_keys : List String) : Except String RunResult :=
  match wait_for_prompt prompt_id responses with
  | Except.error e => Except.error e
  | Except.ok none =>
    Except.ok (RunResult.running prompt_id (stillRunningMessage prompt_id responses.length))
  | Except.ok (some outputs) =>
    match extract_first_asset_info base_url outputs preferred_output_keys with
    | Except.error e => Except.error e
    | Except.ok info => Except.ok (RunResult.completed info outputs)

/-- What a registered workflow tool returns to the MCP caller
(server.py lines 351-365): the success dict or the `{"error": str(exc)}`
dict. -/
inductive ToolResult where
  | ok : String → String → String → String → ToolResult
  | errorDict : String → ToolResult
deriving DecidableEq

/-- The tool wrapper `_tool_impl` (server.py lines 351-365): every exception
raised below it is caught and tagged as `{"error": str(exc)}`. On a
still-running handle the wrapper reads `result["asset_url"]`, which raises
`KeyError: \x27asset_url\x27`; `str` of that `KeyError` is the quoted key. -/
def toolImpl (base_url prompt_id workflow_id tool_name : String)
    (responses : List PollResp) (preferred_output_keys : List String) : ToolResult :=
  match run_custom_workflow base_url prompt_id responses preferred_output_keys with
  | Except.error e => ToolResult.errorDict e
  | Except.ok (RunResult.completed info _) =>
    ToolResult.ok info.asset_url info.asset_url workflow_id tool_name
  | Except.ok (RunResult.running _ _) => ToolResult.errorDict "\x27asset_url\x27"

/-! ## Concrete values used by the witnesses and counterexamples -/

/-- An encoder producing 750-byte WebP output for every setting
(base64 length 1000). -/
def enc750 : Nat → Nat → Nat → Nat := fun _ _ _ => 750

/-- An encoder producing 75-byte WebP output for every setting
(base64 length 100). -/
def enc75 : Nat → Nat → Nat → Nat := fun _ _ _ => 75

/-- The preview produced by `enc750` for a 512×512 source under budget 2000. -/
def bigPreview : EncodedImage := ⟨1000, "image/webp", (512, 512), 750⟩

/-- The cache state after `enc750` populated key `"big"`. -/
def bigCache : Cache := [("big", bigPreview)]

/-- The preview produced by `enc75` for a 100×100 source. -/
def smallPreview : EncodedImage := ⟨100, "image/webp", (100, 100), 75⟩

/-- A placeholder cached value for the eviction experiment. -/
def dummyPreview : EncodedImage := ⟨0, "image/webp", (1, 1), 0⟩

/-- `n` distinct cache keys `k0, k1, ...`. -/
def keysN (n : Nat) : List String := (List.range n).map (fun i => "k" ++ toString i)

/-- Insert the given keys into an empty cache through `cache_preview`. -/
def insertKeys (ks : List String) : Cache :=
  ks.foldl (fun c k => cache_preview c k dummyPreview) []

/-- The extraction tie-break outputs of the spec: node `"9"` first. -/
def outputsNine : J :=
  J.obj [("9", J.obj [("images", J.arr [J.obj [("filename", J.str "a.png")]])]),
         ("3", J.obj [("image", J.arr [J.obj [("filename", J.str "b.png")]])])]

/-- The same outputs with the node iteration order reversed. -/
def outputsThree : J :=
  J.obj [("3", J.obj [("image", J.arr [J.obj [("filename", J.str "b.png")]])]),
         ("9", J.obj [("images", J.arr [J.obj [("filename", J.str "a.png")]])])]

/-- A structured terminal-failure prompt entry: `status_str` is `"error"`
and the messages carry one `execution_error` record. -/
def errorPromptData : List (String × J) :=
  [("status", J.obj
    [("status_str", J.str "error"),
     ("messages", J.arr
       [J.arr [J.str "execution_error",
               J.obj [("node_id", J.num 5),
                      ("node_type", J.str "KSampler"),
                      ("exception_type", J.str "RuntimeError"),
                      ("exception_message", J.str "boom")]]])])]

/-- A poll response whose history contains the terminal failure for `"p1"`. -/
def errorPollResp : PollResp :=
  ⟨HttpResp.resp 200 (some (J.obj [("p1", J.obj errorPromptData)])), HttpResp.netError⟩

/-- The diagnostic string the classifier builds for `errorPromptData`. -/
def errorDiagnostic : String := "Node 5 (KSampler): [RuntimeError] boom"

/-- Poll responses that never reach a terminal state: a transport error, a
500, a non-JSON body, and a history that does not mention the prompt. -/
def inconclusiveResponses : List PollResp :=
  [⟨HttpResp.netError, HttpResp.netError⟩,
   ⟨HttpResp.resp 500 (some (J.obj [])), HttpResp.netError⟩,
   ⟨HttpResp.resp 200 none, HttpResp.netError⟩,
   ⟨HttpResp.resp 200 (some (J.obj [("other", J.obj [])])), HttpResp.netError⟩]

/-- A prompt entry whose dict status holds a non-iterable `messages` value:
the unguarded `for msg in messages` of the classifier raises on it. -/
def badMessagesPromptData : List (String × J) :=
  [("status", J.obj [("messages", J.null)])]

/-- Legacy list-of-pairs status shape. -/
def legacyPromptData : List (String × J) :=
  [("status", J.arr [J.arr [J.str "execution_error", J.str "bad node"]])]

/-- Top-level `error` key shape. -/
def topErrorPromptData : List (String × J) :=
  [("error", J.str "boom")]

/-- An unrecognized status shape (a bare string). -/
def weirdPromptData : List (String × J) :=
  [("status", J.str "weird")]

/-- Decidable check that the `messages` value under a dict `status` (when
present) is iterable — the precise condition under which the classifier
cannot raise. -/
def statusMessagesIterable (prompt_data : List (String × J)) : Bool :=
  match jLookup prompt_data "status" with
  | some (J.obj so) =>
    match jLookup so "messages" with
    | some (J.arr _) => true
    | some (J.str _) => true
    | some (J.obj _) => true
    | some _ => false
    | none => true
  | _ => true

/-! ## Helper lemmas -/

theorem finishEncode_ok (budget bl : Nat) (dims : Nat × Nat) (e : EncodedImage)
    (hok : finishEncode budget bl dims = Except.ok e) :
    e = ⟨b64Len bl, "image/webp", dims, bl⟩ ∧ b64Len bl + dataUriPrefixLen ≤ budget := by
  unfold finishEncode at hok
  split at hok
  · cases hok
  · next hgt =>
    cases hok
    exact ⟨rfl, Nat.le_of_not_lt hgt⟩

theorem ladder_quality_loop_some (enc : Nat → Nat → Nat → Nat) (dims : Nat × Nat)
    (budget : Nat) : ∀ (qs : List Nat) (bl q : Nat) (d : Nat × Nat),
    ladder_quality_loop enc dims budget qs = some (bl, q, d) →
    bl = enc dims.1 dims.2 q ∧ d = dims ∧ b64Len bl + dataUriPrefixLen ≤ budget := by
  intro qs
  induction qs with
  | nil => intro bl q d hsome; cases hsome
  | cons q0 qs ih =>
    intro bl q d hsome
    unfold ladder_quality_loop at hsome
    split at hsome
    · next hfit =>
      cases hsome
      exact ⟨rfl, rfl, hfit⟩
    · exact ih bl q d hsome

theorem ladder_target_loop_some (enc : Nat → Nat → Nat → Nat) (w h budget quality : Nat) :
    ∀ (ts : List Nat) (bl q : Nat) (d : Nat × Nat),
    ladder_target_loop enc w h budget quality ts = some (bl, q, d) →
    ∃ t, t ∈ ts ∧ d = resize_to_target w h t := by
  intro ts
  induction ts with
  | nil => intro bl q d hsome; cases hsome
  | cons t ts ih =>
    intro bl q d hsome
    unfold ladder_target_loop at hsome
    split at hsome
    · next heq =>
      cases hsome
      obtain ⟨_, hd, _⟩ := ladder_quality_loop_some enc _ budget _ bl q d heq
      exact ⟨t, List.mem_cons_self t ts, hd⟩
    · obtain ⟨t', ht', hd⟩ := ih bl q d hsome
      exact ⟨t', List.mem_cons_of_mem t ht', hd⟩

theorem encode_ladder_ok_budget (enc : Nat → Nat → Nat → Nat)
    (w h max_dim budget quality : Nat) (e : EncodedImage)
    (hok : encode_ladder enc w h max_dim budget quality = Except.ok e) :
    e.b64_chars + dataUriPrefixLen ≤ budget := by
  unfold encode_ladder at hok
  split at hok
  · obtain ⟨rfl, hle⟩ := finishEncode_ok _ _ _ _ hok
    exact hle
  · split at hok
    · obtain ⟨rfl, hle⟩ := finishEncode_ok _ _ _ _ hok
      exact hle
    · cases hok

theorem resize_le (w h t : Nat) (hw : 1 ≤ w) (hh : 1 ≤ h) :
    (resize_to_target w h t).1 ≤ w ∧ (resize_to_target w h t).2 ≤ h := by
  unfold resize_to_target
  split
  · next hgt =>
    have hle : t ≤ max w h := le_of_lt hgt
    constructor
    · refine max_le hw (Nat.div_le_of_le_mul ?_)
      rw [Nat.mul_comm (max w h) w]
      exact Nat.mul_le_mul_left w hle
    · refine max_le hh (Nat.div_le_of_le_mul ?_)
      rw [Nat.mul_comm (max w h) h]
      exact Nat.mul_le_mul_left h hle
  · exact ⟨le_refl w, le_refl h⟩

theorem wait_all_retry (prompt_id : String) :
    ∀ responses : List PollResp,
      (∀ r ∈ responses, attemptStep prompt_id r = AttemptOutcome.retry) →
      wait_for_prompt prompt_id responses = Except.ok none := by
  intro responses
  induction responses with
  | nil => intro _; rfl
  | cons r rs ih =>
    intro hall
    unfold wait_for_prompt
    rw [hall r (List.mem_cons_self r rs)]
    exact ih (fun x hx => hall x (List.mem_cons_of_mem r hx))

/-! ## Claims -/

/-- Claim C1, counterexample to the statement as given: a first call with
budget 2000 populates cache key `"big"` with a 1000-character preview; a
second call with the same key and budget 50 returns that cached preview
unchanged, an over-budget payload returned without a budget error. -/
theorem encode_preview_budget_counterexample :
    encode_preview_for_mcp enc750 [] 512 512 512 2000 70 (some "big") =
      Except.ok (bigPreview, bigCache) ∧
    encode_preview_for_mcp enc750 bigCache 512 512 512 50 70 (some "big") =
      Except.ok (bigPreview, bigCache) ∧
    50 < bigPreview.b64_chars + dataUriPrefixLen :=
  ⟨rfl, rfl, by decide⟩

/-- Claim C1 (amended): for every call that does not hit the preview cache,
`encode_preview_for_mcp` either returns an `EncodedImage` whose base64
character count plus the data-URI prefix length is within `max_b64_chars`,
or raises the budget `ValueError`; it never returns an over-budget payload
from the encoding path. -/
theorem encode_preview_budget_invariant (enc : Nat → Nat → Nat → Nat) (cache : Cache)
    (w h max_dim budget quality : Nat) (cache_key : Option String)
    (hmiss : cacheLookupOpt cache (resolveKey cache_key) = none)
    (e : EncodedImage) (c2 : Cache)
    (hok : encode_preview_for_mcp enc cache w h max_dim budget quality cache_key =
      Except.ok (e, c2)) :
    e.b64_chars + dataUriPrefixLen ≤ budget := by
  unfold encode_preview_for_mcp at hok
  rw [hmiss] at hok
  cases hl : encode_ladder enc w h max_dim budget quality with
  | error b =>
    rw [hl] at hok
    cases hok
  | ok r =>
    rw [hl] at hok
    cases hck : resolveKey cache_key with
    | some k =>
      rw [hck] at hok
      cases hok
      exact encode_ladder_ok_budget enc w h max_dim budget quality _ hl
    | none =>
      rw [hck] at hok
      cases hok
      exact encode_ladder_ok_budget enc w h max_dim budget quality _ hl

/-- Witness for C1: a cache-miss call under budget 100000 returns a
preview within budget. -/
theorem encode_preview_budget_invariant_witness :
    smallPreview.b64_chars + dataUriPrefixLen ≤ 100000 :=
  encode_preview_budget_invariant enc75 [] 100 100 512 100000 70 none rfl
    smallPreview [] rfl

set_option maxRecDepth 100000 in
/-- Claim C2, evaluated at the failing input: inserting 101 distinct keys
into the empty cache leaves 101 entries (not 100) with the first key `k0`
still present, because `_cache_preview` evicts only when the size already
exceeds 100 before the insert; the steady state is 101 entries (a 102nd
insert evicts `k0` but still leaves 101 entries), contradicting the claim
and the function's own docstring ("keep last 100 entries"). -/
theorem cache_eviction_off_by_one :
    (insertKeys (keysN 101)).length = 101 ∧
    (get_cached_preview (insertKeys (keysN 101)) "k0").isSome = true ∧
    (get_cached_preview (insertKeys (keysN 101)) "k100").isSome = true ∧
    (insertKeys (keysN 102)).length = 101 ∧
    (get_cached_preview (insertKeys (keysN 102)) "k0").isSome = false :=
  ⟨rfl, rfl, rfl, rfl, rfl⟩

/-- Claim C5: asset extraction scans nodes in the given iteration order and
the preferred keys in priority order, returning the first element of the
first well-formed asset list; on the spec's tie-break outputs with order
`["9", "3"]` it returns `a.png`, and with the nodes reordered it returns
`b.png`. -/
theorem extraction_tiebreak :
    extract_first_asset_info "http://x" outputsNine ["images", "image"] =
      Except.ok ⟨"a.png", "", "output", "http://x/view?filename=a.png&type=output"⟩ ∧
    extract_first_asset_info "http://x" outputsThree ["images", "image"] =
      Except.ok ⟨"b.png", "", "output", "http://x/view?filename=b.png&type=output"⟩ :=
  ⟨rfl, rfl⟩

/-- Claim C10: the cache key excludes the character budget
(`get_cache_key` is built from identity, dimension and quality only), so a
call whose `cache_key` is present in the cache returns the cached
`EncodedImage` unchanged for every `max_b64_chars`. -/
theorem cache_hit_ignores_budget (enc : Nat → Nat → Nat → Nat) (cache : Cache)
    (w h max_dim budget quality : Nat) (k : String) (e : EncodedImage)
    (hhit : cacheLookupOpt cache (resolveKey (some k)) = some e) :
    encode_preview_for_mcp enc cache w h max_dim budget quality (some k) =
      Except.ok (e, cache) := by
  unfold encode_preview_for_mcp
  rw [hhit]

/-- Witness for C10: a cached 1000-character preview is returned under a
budget of 50, exceeding that call's requested budget. -/
theorem cache_hit_ignores_budget_witness :
    encode_preview_for_mcp enc75 bigCache 512 512 512 50 70 (some "big") =
      Except.ok (bigPreview, bigCache) ∧
    50 < bigPreview.b64_chars + dataUriPrefixLen :=
  ⟨cache_hit_ignores_budget enc75 bigCache 512 512 512 50 70 "big" bigPreview rfl,
   by decide⟩

/-- Claim C3, counterexample to the statement as given: on a history entry
whose status reports `status_str = "error"` with a structured
execution-error message, `_wait_for_prompt` raises — the failure escapes
the polling function as an exception (the loop's `except` clauses catch
only transport and JSON errors), rather than being returned as a tagged
failed-job value. -/
theorem terminal_failure_raises_counterexample :
    wait_for_prompt "p1" [errorPollResp] =
      Except.error ("Workflow execution error: " ++ errorDiagnostic) := rfl

/-- Claim C3 (amended): a terminal execution failure is raised as an
exception carrying the descriptive diagnostic string; it escapes
`_wait_for_prompt` and `run_custom_workflow` unchanged and is converted
into the tagged failure value `{"error": <diagnostic>}` only at the tool
wrapper boundary in server.py, so the MCP caller does receive a tagged
failed-job result. -/
theorem terminal_failure_tagged_at_tool_boundary
    (base_url prompt_id workflow_id tool_name : String)
    (responses : List PollResp) (keys : List String) (d : String)
    (hfail : wait_for_prompt prompt_id responses = Except.error d) :
    run_custom_workflow base_url prompt_id responses keys = Except.error d ∧
    toolImpl base_url prompt_id workflow_id tool_name responses keys =
      ToolResult.errorDict d := by
  have h1 : run_custom_workflow base_url prompt_id responses keys = Except.error d := by
    unfold run_custom_workflow
    rw [hfail]
  refine ⟨h1, ?_⟩
  unfold toolImpl
  rw [h1]

/-- Witness for C3: the structured terminal failure reaches the tool
boundary as the tagged error dict holding the diagnostic string. -/
theorem terminal_failure_tagged_witness :
    run_custom_workflow "http://x" "p1" [errorPollResp] ["images"] =
      Except.error ("Workflow execution error: " ++ errorDiagnostic) ∧
    toolImpl "http://x" "p1" "wf" "tool" [errorPollResp] ["images"] =
      ToolResult.errorDict ("Workflow execution error: " ++ errorDiagnostic) :=
  terminal_failure_tagged_at_tool_boundary "http://x" "p1" "wf" "tool"
    [errorPollResp] ["images"] ("Workflow execution error: " ++ errorDiagnostic) rfl

/-- Claim C4: when every attempt is inconclusive (no terminal state
observed), the polling loop exhausts its attempts and returns the `None`
sentinel without raising, and `run_custom_workflow` then returns the
running-status result carrying the prompt id for later re-polling. -/
theorem exhausted_polling_returns_running (base_url prompt_id : String)
    (responses : List PollResp) (keys : List String)
    (hall : ∀ r ∈ responses, attemptStep prompt_id r = AttemptOutcome.retry) :
    wait_for_prompt prompt_id responses = Except.ok none ∧
    run_custom_workflow base_url prompt_id responses keys =
      Except.ok (RunResult.running prompt_id
        (stillRunningMessage prompt_id responses.length)) := by
  have hwait := wait_all_retry prompt_id responses hall
  refine ⟨hwait, ?_⟩
  unfold run_custom_workflow
  rw [hwait]

/-- Witness for C4: four inconclusive attempts (transport error, HTTP 500,
non-JSON body, prompt id absent) yield the running handle. -/
theorem exhausted_polling_returns_running_witness :
    wait_for_prompt "p1" inconclusiveResponses = Except.ok none ∧
    run_custom_workflow "http://x" "p1" inconclusiveResponses ["images"] =
      Except.ok (RunResult.running "p1"
        (stillRunningMessage "p1" inconclusiveResponses.length)) :=
  exhausted_polling_returns_running "http://x" "p1" inconclusiveResponses ["images"]
    (by
      intro r hr
      simp only [inconclusiveResponses, List.mem_cons, List.not_mem_nil, or_false] at hr
      rcases hr with rfl | rfl | rfl | rfl <;> rfl)

/-- Claim C7: the encoder never upscales — each downscale step is entered
only when `max(w, h)` exceeds its target, so for every source of positive
dimensions any returned preview has pixel dimensions bounded by the
source dimensions (in particular a 100×100 source with `max_dim = 512`). -/
theorem never_upscale (enc : Nat → Nat → Nat → Nat)
    (w h max_dim budget quality : Nat) (hw : 1 ≤ w) (hh : 1 ≤ h)
    (e : EncodedImage)
    (hok : encode_ladder enc w h max_dim budget quality = Except.ok e) :
    e.size_px.1 ≤ w ∧ e.size_px.2 ≤ h := by
  unfold encode_ladder at hok
  split at hok
  · next bl q dims heq =>
    obtain ⟨rfl, _⟩ := finishEncode_ok _ _ _ _ hok
    obtain ⟨t, _, hd⟩ := ladder_target_loop_some enc w h budget quality _ bl q dims heq
    rw [show (EncodedImage.mk (b64Len bl) "image/webp" dims bl).size_px = dims from rfl, hd]
    exact resize_le w h t hw hh
  · split at hok
    · obtain ⟨rfl, _⟩ := finishEncode_ok _ _ _ _ hok
      exact resize_le w h 256 hw hh
    · cases hok

/-- Witness for C7: a 100×100 source encoded with `max_dim = 512` keeps
dimensions at most 100×100. -/
theorem never_upscale_witness :
    smallPreview.size_px.1 ≤ 100 ∧ smallPreview.size_px.2 ≤ 100 :=
  never_upscale enc75 100 100 512 100000 70 (by decide) (by decide) smallPreview rfl

theorem utf8Bytes_ne_nil (c : Char) : utf8Bytes c ≠ [] := by
  unfold utf8Bytes
  dsimp only
  split
  · simp
  · split
    · simp
    · split <;> simp

theorem quoteByte_ne_nil (b : Nat) : quoteByte b ≠ [] := by
  unfold quoteByte
  split <;> simp

theorem quote_ne_empty (s : String) (hs : s ≠ "") : quote s ≠ "" := by
  intro h
  have hdata : (((s.toList.map utf8Bytes).flatten).map quoteByte).flatten = ([] : List Char) :=
    congrArg String.data h
  have h1 : (s.toList.map utf8Bytes).flatten = [] := by
    by_contra hne
    obtain ⟨b, bs, hb⟩ := List.exists_cons_of_ne_nil hne
    rw [hb] at hdata
    simp at hdata
    exact quoteByte_ne_nil b hdata.1
  have h2 : s.toList = [] := by
    by_contra hne
    obtain ⟨c, cs, hc⟩ := List.exists_cons_of_ne_nil hne
    rw [hc] at h1
    simp at h1
    exact utf8Bytes_ne_nil c h1.1
  apply hs
  cases s
  simp_all [String.toList]

theorem structuredParts_ok_of_iterable (pd : List (String × J))
    (hiter : statusMessagesIterable pd = true) :
    ∃ l, structuredParts ((jLookup pd "status").getD (J.obj [])) = Except.ok l := by
  unfold statusMessagesIterable at hiter
  cases hst : jLookup pd "status" with
  | none => exact ⟨[], rfl⟩
  | some st =>
    cases st with
    | obj so =>
      have hrw : structuredParts ((some (J.obj so)).getD (J.obj [])) =
          match pyIter ((jLookup so "messages").getD (J.arr [])) with
          | Except.error t => Except.error t
          | Except.ok msgs =>
            Except.ok (msgs.foldl (fun acc m => acc ++ executionErrorParts m) []) := rfl
      rw [hrw]
      cases hm : jLookup so "messages" with
      | none => exact ⟨_, rfl⟩
      | some m =>
        cases m with
        | arr l => exact ⟨_, rfl⟩
        | str s => exact ⟨_, rfl⟩
        | obj o => exact ⟨_, rfl⟩
        | null => simp [hst, hm] at hiter
        | bool b => simp [hst, hm] at hiter
        | num n => simp [hst, hm] at hiter
    | null => exact ⟨[], rfl⟩
    | bool b => exact ⟨[], rfl⟩
    | num n => exact ⟨[], rfl⟩
    | str s => exact ⟨[], rfl⟩
    | arr l => exact ⟨[], rfl⟩

/-- Claim C9, counterexample to the statement as given: the shape
`{"status": {"messages": null}}` is unrecognized, yet the classifier does
not degrade to a diagnostic string — the unguarded `for msg in messages`
raises `TypeError` on the non-iterable value. -/
theorem classifier_throws_counterexample :
    extract_node_errors badMessagesPromptData =
      Except.error "TypeError: \x27NoneType\x27 object is not iterable" := rfl

/-- Claim C9 (amended): for every status payload whose `messages` value
under a dict status is absent or iterable — including all three known
shapes and arbitrary unrecognized ones — the classifier returns a
diagnostic string and never throws, with unrecognized shapes degrading to
the generic raw-status dump; when a dict status carries a truthy
non-iterable `messages` value (e.g. `null` or a number) the classifier
raises `TypeError` instead. -/
theorem classifier_total_on_iterable_messages :
    (∀ pd : List (String × J), statusMessagesIterable pd = true →
      ∃ s, extract_node_errors pd = Except.ok s) ∧
    extract_node_errors errorPromptData = Except.ok errorDiagnostic ∧
    extract_node_errors legacyPromptData = Except.ok "Execution error: bad node" ∧
    extract_node_errors topErrorPromptData = Except.ok "Error: \"boom\"" ∧
    extract_node_errors weirdPromptData =
      Except.ok "No detailed error info. Status: \"weird\"" := by
  refine ⟨?_, rfl, rfl, rfl, rfl⟩
  intro pd hiter
  obtain ⟨l, hl⟩ := structuredParts_ok_of_iterable pd hiter
  unfold extract_node_errors
  rw [hl]
  exact ⟨_, rfl⟩

/-- Witness for C9: the structured shape satisfies the iterability
hypothesis and the classifier returns a diagnostic for it. -/
theorem classifier_total_witness :
    ∃ s, extract_node_errors errorPromptData = Except.ok s :=
  classifier_total_on_iterable_messages.1 errorPromptData rfl

/-- Claim C8: the asset URL percent-encodes the filename and, when
non-empty, the subfolder; an empty subfolder omits the `subfolder` query
parameter entirely. Concretely, `a b.png` with an empty subfolder yields a
URL with the space percent-encoded and no subfolder parameter. -/
theorem build_url_subfolder_handling :
    (∀ base fn kind : String, build_url base fn "" kind =
      rstripSlashes base ++ "/view?filename=" ++ quote fn ++ "&type=" ++ kind) ∧
    (∀ base fn sub kind : String, sub ≠ "" →
      build_url base fn sub kind =
        rstripSlashes base ++ "/view?filename=" ++ quote fn ++ "&subfolder=" ++
          quote sub ++ "&type=" ++ kind) ∧
    build_url "http://x" "a b.png" "" "output" =
      "http://x/view?filename=a%20b.png&type=output" ∧
    build_url "http://x" "a b.png" "dir one" "output" =
      "http://x/view?filename=a%20b.png&subfolder=dir%20one&type=output" := by
  refine ⟨fun base fn kind => rfl, ?_, rfl, rfl⟩
  intro base fn sub kind hsub
  have hq : quote sub ≠ "" := quote_ne_empty sub hsub
  simp [build_url, bne_iff_ne, hsub, hq]

/-- Witness for C8: a non-empty subfolder is percent-encoded and included. -/
theorem build_url_subfolder_handling_witness :
    build_url "http://x" "a b.png" "sub dir" "output" =
      rstripSlashes "http://x" ++ "/view?filename=" ++ quote "a b.png" ++ "&subfolder=" ++
        quote "sub dir" ++ "&type=" ++ "output" :=
  build_url_subfolder_handling.2.1 "http://x" "a b.png" "sub dir" "output" (by decide)

theorem firstFit_some_fits (enc : Nat → Nat → Nat → Nat) (w h budget : Nat) :
    ∀ (l : List (Nat × Nat)) (tq : Nat × Nat),
    firstFit enc w h budget l = some tq → comboFits enc w h budget tq = true := by
  intro l
  induction l with
  | nil => intro tq hsome; cases hsome
  | cons x xs ih =>
    intro tq hsome
    unfold firstFit at hsome
    split at hsome
    · next hb => cases hsome; exact hb
    · exact ih tq hsome

theorem firstFit_block (enc : Nat → Nat → Nat → Nat) (w h budget t : Nat) :
    ∀ (qs : List Nat) (rest : List (Nat × Nat)),
    firstFit enc w h budget (qs.map (fun q => (t, q)) ++ rest) =
      match ladder_quality_loop enc (resize_to_target w h t) budget qs with
      | some r => some (t, r.2.1)
      | none => firstFit enc w h budget rest := by
  intro qs
  induction qs with
  | nil => intro rest; rfl
  | cons q qs ih =>
    intro rest
    simp only [List.map_cons, List.cons_append]
    by_cases hfit : b64Len (enc (resize_to_target w h t).1 (resize_to_target w h t).2 q) +
        dataUriPrefixLen ≤ budget
    · simp [firstFit, ladder_quality_loop, comboFits, hfit]
    · simp only [firstFit, ladder_quality_loop, comboFits]
      rw [if_neg (by simpa using hfit), if_neg hfit]
      exact ih rest

theorem target_loop_eq_firstFit (enc : Nat → Nat → Nat → Nat) (w h budget quality : Nat) :
    ∀ ts : List Nat,
    ladder_target_loop enc w h budget quality ts =
      (firstFit enc w h budget
        (ts.foldr (fun t acc => (qualityLevels quality).map (fun q => (t, q)) ++ acc) [])).map
        (fun tq => (enc (resize_to_target w h tq.1).1 (resize_to_target w h tq.1).2 tq.2,
          tq.2, resize_to_target w h tq.1)) := by
  intro ts
  induction ts with
  | nil => rfl
  | cons t ts ih =>
    simp only [List.foldr_cons]
    rw [firstFit_block]
    cases hq : ladder_quality_loop enc (resize_to_target w h t) budget (qualityLevels quality) with
    | none =>
      simp only [ladder_target_loop, hq]
      exact ih
    | some r =>
      obtain ⟨bl, q, d⟩ := r
      obtain ⟨hbl, hd, _⟩ := ladder_quality_loop_some enc _ budget _ bl q d hq
      subst hbl
      subst hd
      simp [ladder_target_loop, hq]

/-- Claim C6: the encoder searches the fixed schedule greedily — the outer
loop over `[max_dim, 384, 256]` with the inner loop over
`[starting_quality, 55, 40]` is exactly a first-fit scan of the flattened
(target, quality) schedule; if nothing fits, one last-resort attempt at
256px / quality 35 is made, and failing that the budget error reports both
the achieved character count and the budget. -/
theorem ladder_greedy_schedule (enc : Nat → Nat → Nat → Nat)
    (w h max_dim budget quality : Nat) :
    encode_ladder enc w h max_dim budget quality =
      match firstFit enc w h budget (specSchedule max_dim quality) with
      | some (t, q) =>
        Except.ok ⟨b64Len (enc (resize_to_target w h t).1 (resize_to_target w h t).2 q),
          "image/webp", resize_to_target w h t,
          enc (resize_to_target w h t).1 (resize_to_target w h t).2 q⟩
      | none =>
        if b64Len (enc (resize_to_target w h 256).1 (resize_to_target w h 256).2 35) +
            dataUriPrefixLen ≤ budget then
          Except.ok ⟨b64Len (enc (resize_to_target w h 256).1 (resize_to_target w h 256).2 35),
            "image/webp", resize_to_target w h 256,
            enc (resize_to_target w h 256).1 (resize_to_target w h 256).2 35⟩
        else
          Except.error
            ⟨b64Len (enc (resize_to_target w h 256).1 (resize_to_target w h 256).2 35),
             budget⟩ := by
  unfold encode_ladder specSchedule
  rw [target_loop_eq_firstFit]
  cases hf : firstFit enc w h budget
      ((downscaleTargets max_dim).foldr
        (fun t acc => (qualityLevels quality).map (fun q => (t, q)) ++ acc) []) with
  | none =>
    simp only [Option.map_none']
    split
    · next hfit => simp [finishEncode, Nat.not_lt.mpr hfit]
    · rfl
  | some tq =>
    obtain ⟨t, q⟩ := tq
    have hfit : comboFits enc w h budget (t, q) = true :=
      firstFit_some_fits enc w h budget _ _ hf
    have hle : b64Len (enc (resize_to_target w h t).1 (resize_to_target w h t).2 q) +
        dataUriPrefixLen ≤ budget := by simpa [comboFits] using hfit
    simp only [Option.map_some']
    simp [finishEncode, Nat.not_lt.mpr hle]
